import Mathlib

/-
Verification of the I/O shim of src/src/io_utils.h (namespace io):
the transient-retry wrapper TEMP_FAILURE_RETRY, the errno
classification function ignored_errorno, the descriptor lifecycle
tracker driven through io::check, and the syscall facade wrappers.

Machine integers are modelled as Int (errno values and descriptors) and
Nat (tracker bitmasks).  The errno constants carry their Linux x86-64
values, the platform on which the source is built by default; on that
platform EAGAIN = EWOULDBLOCK and ENONET is defined, matching the
preprocessor conditionals in the source.
-/

def STDERR_FILENO : Int := 2

/-- Default value of the build-time constant at src/src/io_utils.h:44-46. -/
def XAPIAND_MINIMUM_FILE_DESCRIPTOR : Int := STDERR_FILENO + 1

def EINTR : Int := 4

def EAGAIN : Int := 11

def EWOULDBLOCK : Int := 11

def EPIPE : Int := 32

def EINPROGRESS : Int := 115

def ENETDOWN : Int := 100

def EPROTO : Int := 71

def ENOPROTOOPT : Int := 92

def EHOSTDOWN : Int := 112

def ENONET : Int := 64

def EHOSTUNREACH : Int := 113

def EOPNOTSUPP : Int := 95

def ENETUNREACH : Int := 101

def ECONNRESET : Int := 104

/-- One invocation of a wrapped system call: the value it returned and the
errno it left behind. -/
structure CallResult where
  ret : Int
  err : Int
  deriving DecidableEq, Repr

/-- Embedding of the TEMP_FAILURE_RETRY macro (src/src/io_utils.h:49-58).
The wrapped expression is modelled by the list of results its successive
invocations produce.  The macro re-evaluates the expression while the result
is -1 with errno EINTR and returns the first other result; `none` models the
loop still spinning past the end of the given trace.  The loop condition is
`_err == -1 && errno == EINTR`: the Interrupt-Suppression Flag
(io::ignore_intr) is not consulted here. -/
def TEMP_FAILURE_RETRY : List CallResult → Option CallResult
  | [] => none
  | r :: rs =>
    if r.ret = -1 ∧ r.err = EINTR then TEMP_FAILURE_RETRY rs else some r

/-- The retry loop as the specification describes it (spec 4.1): re-invoke
while the error code equals EINTR AND the Interrupt-Suppression Flag is
enabled.  This definition follows the words of the spec, to be compared
against TEMP_FAILURE_RETRY, which follows the source. -/
def retryPerSpec (intr : Bool) : List CallResult → Option CallResult
  | [] => none
  | r :: rs =>
    if (r.ret = -1 ∧ r.err = EINTR) ∧ intr = true then retryPerSpec intr rs
    else some r

/-- Embedding of io::ignored_errorno (src/src/io_utils.h:97-126).  The
parameter `intr` models the value the process-wide atomic io::ignore_intr
holds at call time (the source reads it dynamically inside the EINTR case).
On the modelled platform EAGAIN = EWOULDBLOCK, so the duplicate case label
is excluded by the preprocessor; the disjunction keeps both names. -/
def ignored_errorno (intr : Bool) (e : Int) (again tcp udp : Bool) : Bool :=
  if e = EINTR then intr
  else if e = EAGAIN ∨ e = EWOULDBLOCK then again
  else if e = EPIPE ∨ e = EINPROGRESS then tcp
  else if e = ENETDOWN ∨ e = EPROTO ∨ e = ENOPROTOOPT ∨ e = EHOSTDOWN ∨
          e = ENONET ∨ e = EHOSTUNREACH ∨ e = EOPNOTSUPP ∨
          e = ENETUNREACH ∨ e = ECONNRESET then udp
  else false

/-- The connectionless-routing errno set of the udp branch. -/
def udpCodes : List Int :=
  [ENETDOWN, EPROTO, ENOPROTOOPT, EHOSTDOWN, ENONET, EHOSTUNREACH,
   EOPNOTSUPP, ENETUNREACH, ECONNRESET]

/-- Every errno value with a dedicated case label in ignored_errorno. -/
def knownCodes : List Int :=
  [EINTR, EAGAIN, EWOULDBLOCK, EPIPE, EINPROGRESS] ++ udpCodes

/-- Point update of the tracker map at one descriptor key. -/
def updateFd (t : Int → Nat) (fd : Int) (v : Nat) : Int → Nat :=
  fun x => if x = fd then v else t x

def OPENED : Nat := 1

def SOCKET : Nat := 2

def CLOSED : Nat := 4

/-- Modelled from the spec: the body of io::check is declared at
src/src/io_utils.h:67 but implemented in a file not under src/.  Following
spec 4.3: a descriptor below XAPIAND_MINIMUM_FILE_DESCRIPTOR aborts with a
configuration error; a tracked state missing a required bit of `check_set`
or holding any bit of `check_unset` aborts with a diagnostic; otherwise the
`set` bits are ORed into the tracked state.  A creation call that failed at
the OS level hands the sentinel -1 to the registration macro
(src/src/io_utils.h:206-210, 236-241); per spec 4.4 registration happens
only on successful creation, so -1 registers nothing.  `none` models the
abort. -/
def check (t : Int → Nat) (fd : Int) (check_set check_unset set : Nat) :
    Option (Int → Nat) :=
  if fd = -1 then some t
  else if fd < XAPIAND_MINIMUM_FILE_DESCRIPTOR then none
  else
    let st := t fd
    if check_set &&& st ≠ check_set then none
    else if check_unset &&& st ≠ 0 then none
    else some (updateFd t fd (st ||| set))

/-- CHECK_OPEN macro (src/src/io_utils.h:68). -/
def CHECK_OPEN (t : Int → Nat) (fd : Int) : Option (Int → Nat) :=
  check t fd 0 (OPENED ||| CLOSED) OPENED

/-- CHECK_OPEN_SOCKET macro (src/src/io_utils.h:69). -/
def CHECK_OPEN_SOCKET (t : Int → Nat) (fd : Int) : Option (Int → Nat) :=
  check t fd 0 (OPENED ||| SOCKET ||| CLOSED) (OPENED ||| SOCKET)

/-- CHECK_CLOSING macro (src/src/io_utils.h:70). -/
def CHECK_CLOSING (t : Int → Nat) (fd : Int) : Option (Int → Nat) :=
  check t fd OPENED 0 0

/-- CHECK_CLOSE macro (src/src/io_utils.h:71). -/
def CHECK_CLOSE (t : Int → Nat) (fd : Int) : Option (Int → Nat) :=
  check t fd 0 CLOSED CLOSED

/-- CHECK_OPENED macro (src/src/io_utils.h:72): the pre-check of the file
operations; it requires only the OPENED bit and forbids CLOSED. -/
def CHECK_OPENED (t : Int → Nat) (fd : Int) : Option (Int → Nat) :=
  check t fd OPENED CLOSED 0

/-- CHECK_OPENED_SOCKET macro (src/src/io_utils.h:73): the pre-check of the
socket operations; it requires OPENED and SOCKET and forbids CLOSED. -/
def CHECK_OPENED_SOCKET (t : Int → Nat) (fd : Int) : Option (Int → Nat) :=
  check t fd (OPENED ||| SOCKET) CLOSED 0

/-- Modelled from the spec: the tracker effect of io::close, whose body is
declared at src/src/io_utils.h:132 but implemented outside src/.  Per spec
4.3 closing must observe an open descriptor (CHECK_CLOSING) and, on success
of the real OS call, sets Closed and additionally clears the open bits. -/
def close_track (t : Int → Nat) (fd : Int) (osSuccess : Bool) :
    Option (Int → Nat) :=
  (CHECK_CLOSING t fd).map
    (fun t1 => if osSuccess then updateFd t1 fd CLOSED else t1)

/-- Modelled from the spec (data model, spec 3): when the OS reuses a closed
descriptor number, the tracker treats it as a new logical descriptor,
re-entering Unopened before the next open. -/
def reuse (t : Int → Nat) (fd : Int) : Int → Nat :=
  updateFd t fd 0

/-- The all-Unopened tracker: no descriptor has been registered. -/
def freshTracker : Int → Nat := fun _ => 0

/-- Embedding of io::socket (src/src/io_utils.h:206-210): the wrapper makes
the OS call, runs CHECK_OPEN_SOCKET on whatever it returned, and returns the
result unchanged.  `osRet` is the value ::socket returned. -/
def socket_wrapper (t : Int → Nat) (osRet : Int) :
    Int × Option (Int → Nat) :=
  (osRet, CHECK_OPEN_SOCKET t osRet)

/-- Embedding of io::accept (src/src/io_utils.h:236-241): pre-check the
listening socket, run ::accept through TEMP_FAILURE_RETRY, then run
CHECK_OPEN_SOCKET on the returned value and return it unchanged.
`osResults` is the trace of results of the successive ::accept calls. -/
def accept_wrapper (t : Int → Nat) (sock : Int) (osResults : List CallResult) :
    Option Int × Option (Int → Nat) :=
  match CHECK_OPENED_SOCKET t sock with
  | none => (none, none)
  | some t1 =>
    match TEMP_FAILURE_RETRY osResults with
    | none => (none, some t1)
    | some r => (some r.ret, CHECK_OPEN_SOCKET t1 r.ret)

/-- The (must-have, must-not-have, set-on-success) triple each non-creating,
non-closing facade wrapper passes to io::check, read off the pre-check macro
each wrapper invokes at src/src/io_utils.h:146-309. -/
def wrapperChecks : List (String × Nat × Nat × Nat) :=
  [("lseek", OPENED, CLOSED, 0),
   ("fcntl", OPENED, CLOSED, 0),
   ("fstat", OPENED, CLOSED, 0),
   ("dup", OPENED, CLOSED, 0),
   ("dup2", OPENED, CLOSED, 0),
   ("shutdown", OPENED ||| SOCKET, CLOSED, 0),
   ("send", OPENED ||| SOCKET, CLOSED, 0),
   ("sendto", OPENED ||| SOCKET, CLOSED, 0),
   ("recv", OPENED ||| SOCKET, CLOSED, 0),
   ("recvfrom", OPENED ||| SOCKET, CLOSED, 0),
   ("getsockopt", OPENED ||| SOCKET, CLOSED, 0),
   ("setsockopt", OPENED ||| SOCKET, CLOSED, 0),
   ("listen", OPENED ||| SOCKET, CLOSED, 0),
   ("bind", OPENED ||| SOCKET, CLOSED, 0),
   ("connect", OPENED ||| SOCKET, CLOSED, 0),
   ("fsync", OPENED, CLOSED, 0),
   ("full_fsync", OPENED, CLOSED, 0),
   ("fallocate", OPENED, CLOSED, 0),
   ("fadvise", OPENED, CLOSED, 0)]

/-- Build-time platform configuration consulted by the preprocessor
conditionals around the sync primitives (src/src/io_utils.h:84-91 and
267-273): whether fdatasync, fsync, and the F_FULLFSYNC fcntl exist. -/
structure Platform where
  hasFDataSync : Bool
  hasFSync : Bool
  hasFullFSync : Bool
  deriving DecidableEq, Repr

/-- Results the underlying sync primitives would return for the descriptor
at hand, used as an oracle for the selection logic. -/
structure SyncOracle where
  fdatasyncRet : Int
  fsyncRet : Int
  fullfsyncRet : Int

/-- Embedding of the __io_fsync selection (src/src/io_utils.h:84-91):
fdatasync when HAVE_FDATASYNC, else fsync when HAVE_FSYNC, else the no-op
io::__noop, which returns 0. -/
def __io_fsync (p : Platform) (o : SyncOracle) : Int :=
  if p.hasFDataSync then o.fdatasyncRet
  else if p.hasFSync then o.fsyncRet
  else 0

/-- Embedding of io::unchecked_fsync (src/src/io_utils.h:256-258) modulo
the retry layer, which is modelled separately by TEMP_FAILURE_RETRY. -/
def unchecked_fsync (p : Platform) (o : SyncOracle) : Int :=
  __io_fsync p o

/-- Embedding of io::unchecked_full_fsync (src/src/io_utils.h:267-273)
modulo the retry layer: fcntl with F_FULLFSYNC when the platform defines it,
else whatever __io_fsync resolves to. -/
def unchecked_full_fsync (p : Platform) (o : SyncOracle) : Int :=
  if p.hasFullFSync then o.fullfsyncRet
  else __io_fsync p o

/-- io::unlink (src/src/io_utils.h:141-143): returns the OS result. -/
def unlink_wrapper (r : CallResult) : CallResult := r

/-- io::lseek (src/src/io_utils.h:146-149): after the pre-check, returns
the result of ::lseek unchanged, errno untouched. -/
def lseek_wrapper (r : CallResult) : CallResult := r

/-- io::fstat (src/src/io_utils.h:165-168): returns the OS result. -/
def fstat_wrapper (r : CallResult) : CallResult := r

/-- io::dup (src/src/io_utils.h:171-174): returns the OS result. -/
def dup_wrapper (r : CallResult) : CallResult := r

/-- io::dup2 (src/src/io_utils.h:177-180): returns the OS result. -/
def dup2_wrapper (r : CallResult) : CallResult := r

/-- io::shutdown (src/src/io_utils.h:183-186): returns the OS result. -/
def shutdown_wrapper (r : CallResult) : CallResult := r

/-- io::getsockopt (src/src/io_utils.h:218-221): returns the OS result. -/
def getsockopt_wrapper (r : CallResult) : CallResult := r

/-- io::setsockopt (src/src/io_utils.h:224-227): returns the OS result. -/
def setsockopt_wrapper (r : CallResult) : CallResult := r

/-- io::listen (src/src/io_utils.h:230-233): returns the OS result. -/
def listen_wrapper (r : CallResult) : CallResult := r

/-- io::bind (src/src/io_utils.h:244-247): returns the OS result. -/
def bind_wrapper (r : CallResult) : CallResult := r

/-- io::unchecked_fcntl (src/src/io_utils.h:152-155): the OS call through
TEMP_FAILURE_RETRY, the eventual result returned unchanged. -/
def fcntl_wrapper (l : List CallResult) : Option CallResult :=
  TEMP_FAILURE_RETRY l

/-- io::send (src/src/io_utils.h:189-192): the OS call through
TEMP_FAILURE_RETRY, the eventual result returned unchanged. -/
def send_wrapper (l : List CallResult) : Option CallResult :=
  TEMP_FAILURE_RETRY l

/-- io::sendto (src/src/io_utils.h:195-198). -/
def sendto_wrapper (l : List CallResult) : Option CallResult :=
  TEMP_FAILURE_RETRY l

/-- io::recv (src/src/io_utils.h:201-204). -/
def recv_wrapper (l : List CallResult) : Option CallResult :=
  TEMP_FAILURE_RETRY l

/-- io::recvfrom (src/src/io_utils.h:212-215). -/
def recvfrom_wrapper (l : List CallResult) : Option CallResult :=
  TEMP_FAILURE_RETRY l

/-- io::connect (src/src/io_utils.h:250-253). -/
def connect_wrapper (l : List CallResult) : Option CallResult :=
  TEMP_FAILURE_RETRY l

/-- io::fadvise in the HAVE_POSIX_FADVISE build (src/src/io_utils.h:292-296):
the source returns `::posix_fadvise(fd, offset, len, advice) == 0`, so the
value handed to the caller is the boolean comparison, 1 when the primitive
returned 0 and 0 otherwise, not the primitive result itself.
posix_fadvise reports its error in the return value and leaves errno
alone, which the embedding keeps in the err field. -/
def fadvise_wrapper (r : CallResult) : CallResult :=
  ⟨if r.ret = 0 then 1 else 0, r.err⟩

/-- The retry loop returns the first result of the trace that is not the
interrupted-failure pair, independently of any flag. -/
lemma TFR_eq_find (l : List CallResult) :
    TEMP_FAILURE_RETRY l =
      l.find? (fun r => !(r.ret == -1 && r.err == EINTR)) := by
  induction l with
  | nil => rfl
  | cons r rs ih =>
    by_cases h : r.ret = -1 ∧ r.err = EINTR
    · rw [List.find?_cons_of_neg _ (by simp [h.1, h.2])]
      simpa [TEMP_FAILURE_RETRY, h] using ih
    · have hb : (r.ret == -1 && r.err == EINTR) = false := by
        cases hb1 : (r.ret == -1) <;> cases hb2 : (r.err == EINTR) <;>
          simp_all [beq_iff_eq]
      rw [List.find?_cons_of_pos _ (by simp [hb])]
      simp [TEMP_FAILURE_RETRY, h]

/-- C1 counterexample: with the Interrupt-Suppression Flag clear and a call
that first fails with (-1, EINTR) and then succeeds with (0, 0), the source
macro still retries and returns the success, while the claimed behavior
(retry only while the flag is enabled) would hand the caller the
interruption failure.  The claim is therefore false on the code. -/
theorem C1_retry_ignores_flag_cex :
    TEMP_FAILURE_RETRY [⟨-1, EINTR⟩, ⟨0, 0⟩] = some ⟨0, 0⟩ ∧
    retryPerSpec false [⟨-1, EINTR⟩, ⟨0, 0⟩] = some ⟨-1, EINTR⟩ ∧
    some (⟨0, 0⟩ : CallResult) ≠ some (⟨-1, EINTR⟩ : CallResult) := by
  refine ⟨by decide, by decide, by decide⟩

/-- C1 (amended): TEMP_FAILURE_RETRY re-invokes the call while it returns -1
with errno EINTR, unconditionally: the Interrupt-Suppression Flag is not
consulted by the retry loop (it is read only by ignored_errorno), and the
wrapper returns the first result of the invocation trace that is either
success or a different failure. -/
theorem C1_retry_returns_first_non_interruption (l : List CallResult) :
    TEMP_FAILURE_RETRY l =
      l.find? (fun r => !(r.ret == -1 && r.err == EINTR)) :=
  TFR_eq_find l

/-- C2: ignored_errorno returns Ignore for EAGAIN/EWOULDBLOCK exactly when
allow_again is set, Ignore for EPIPE and EINPROGRESS exactly when is_tcp is
set, and Ignore for each code of the connectionless-routing set exactly when
is_udp is set, for every combination of the flags and of the
Interrupt-Suppression Flag. -/
theorem C2_channel_classification (intr again tcp udp : Bool) :
    ignored_errorno intr EAGAIN again tcp udp = again ∧
    ignored_errorno intr EWOULDBLOCK again tcp udp = again ∧
    ignored_errorno intr EPIPE again tcp udp = tcp ∧
    ignored_errorno intr EINPROGRESS again tcp udp = tcp ∧
    udpCodes.all (fun e => ignored_errorno intr e again tcp udp == udp)
      = true := by
  cases intr <;> cases again <;> cases tcp <;> cases udp <;> decide

/-- C3: ignored_errorno is a total function of its arguments; EINTR maps to
Ignore exactly when the Interrupt-Suppression Flag holds at call time (the
intr parameter models the dynamic read of the io::ignore_intr atomic); any
errno outside the enumerated case labels maps to Propagate; and with the
three channel flags clear every non-EINTR errno maps to Propagate. -/
theorem C3_total_default_propagate (intr again tcp udp : Bool) (e : Int) :
    ignored_errorno intr EINTR again tcp udp = intr ∧
    (e ∉ knownCodes → ignored_errorno intr e again tcp udp = false) ∧
    (e ≠ EINTR → ignored_errorno intr e false false false = false) := by
  refine ⟨by simp [ignored_errorno], ?_, ?_⟩
  · intro h
    unfold ignored_errorno
    split_ifs with h1 h2 h3 h4
    · exact absurd (by rw [h1]; decide) h
    · rcases h2 with h2 | h2 <;> exact absurd (by rw [h2]; decide) h
    · rcases h3 with h3 | h3 <;> exact absurd (by rw [h3]; decide) h
    · rcases h4 with h4 | h4 | h4 | h4 | h4 | h4 | h4 | h4 | h4 <;>
        exact absurd (by rw [h4]; decide) h
    · rfl
  · intro h
    unfold ignored_errorno
    split_ifs with h1 h2 h3 h4
    · exact absurd h1 h
    all_goals rfl

/-- C3 witness at concrete inputs: errno 9999 has no case label and
propagates; EPIPE with all channel flags clear propagates; EINTR follows
the flag. -/
theorem C3_total_default_propagate_witness :
    ignored_errorno true EINTR true true true = true ∧
    ignored_errorno true 9999 true true true = false ∧
    ignored_errorno false EPIPE false false false = false :=
  ⟨(C3_total_default_propagate true true true true 9999).1,
   (C3_total_default_propagate true true true true 9999).2.1 (by decide),
   (C3_total_default_propagate false true true true EPIPE).2.2 (by decide)⟩

/-- C8: for every finite run of interruption failures (-1, EINTR) followed
by a non-interruption result, TEMP_FAILURE_RETRY returns that result and the
caller never observes an interruption error.  The source macro retries
unconditionally, so this holds in particular whenever the
Interrupt-Suppression Flag is enabled, which is what the claim supposes. -/
theorem C8_retry_absorbs_interruptions (n : Nat) (r : CallResult)
    (h : ¬(r.ret = -1 ∧ r.err = EINTR)) :
    TEMP_FAILURE_RETRY (List.replicate n ⟨-1, EINTR⟩ ++ [r]) = some r ∧
    ¬(r.ret = -1 ∧ r.err = EINTR) := by
  refine ⟨?_, h⟩
  induction n with
  | zero => simp [TEMP_FAILURE_RETRY, h]
  | succ n ih =>
    rw [List.replicate_succ, List.cons_append]
    simpa [TEMP_FAILURE_RETRY] using ih

/-- C8 witness: two interruptions followed by the success value 7. -/
theorem C8_retry_absorbs_interruptions_witness :
    TEMP_FAILURE_RETRY (List.replicate 2 ⟨-1, EINTR⟩ ++ [⟨7, 0⟩])
      = some ⟨7, 0⟩ ∧
    ¬((⟨7, 0⟩ : CallResult).ret = -1 ∧ (⟨7, 0⟩ : CallResult).err = EINTR) :=
  C8_retry_absorbs_interruptions 2 ⟨7, 0⟩ (by decide)

/-- C5: the sync selection degrades gracefully.  unchecked_full_fsync uses
the full-durability F_FULLFSYNC fcntl whenever the platform defines it,
otherwise falls back to the data-sync chain __io_fsync (fdatasync, else
fsync), and when no sync primitive exists at all both it and
unchecked_fsync resolve to the no-op and return 0, success, without
raising an error. -/
theorem C5_sync_degrades_gracefully (o : SyncOracle) (b1 b2 : Bool) :
    unchecked_full_fsync ⟨b1, b2, true⟩ o = o.fullfsyncRet ∧
    unchecked_full_fsync ⟨true, b2, false⟩ o = o.fdatasyncRet ∧
    unchecked_full_fsync ⟨false, true, false⟩ o = o.fsyncRet ∧
    unchecked_full_fsync ⟨false, false, false⟩ o = 0 ∧
    unchecked_fsync ⟨false, false, false⟩ o = 0 := by
  cases b1 <;> cases b2 <;>
    simp [unchecked_full_fsync, unchecked_fsync, __io_fsync]

/-- C9: io::check rejects every registration attempt on an actual
descriptor (a non-negative value, as the OS issues) numerically below
XAPIAND_MINIMUM_FILE_DESCRIPTOR, whatever bits the caller asks to check or
set, and the floor defaults to one above STDERR_FILENO, so descriptors 0,
1 and 2 are never accepted by default. -/
theorem C9_minimum_descriptor_guard :
    XAPIAND_MINIMUM_FILE_DESCRIPTOR = STDERR_FILENO + 1 ∧
    ∀ (t : Int → Nat) (fd : Int) (check_set check_unset set : Nat),
      0 ≤ fd → fd < XAPIAND_MINIMUM_FILE_DESCRIPTOR →
      check t fd check_set check_unset set = none := by
  refine ⟨rfl, ?_⟩
  intro t fd cs cu s h0 hlt
  unfold check
  rw [if_neg (by omega), if_pos hlt]

/-- C9 witness: descriptors 0, 1 and 2 are rejected, for file-kind,
socket-kind and opening-kind check parameters alike. -/
theorem C9_minimum_descriptor_guard_witness :
    check freshTracker 0 OPENED CLOSED 0 = none ∧
    check freshTracker 1 (OPENED ||| SOCKET) CLOSED 0 = none ∧
    check freshTracker 2 0 (OPENED ||| CLOSED) OPENED = none :=
  ⟨C9_minimum_descriptor_guard.2 freshTracker 0 OPENED CLOSED 0
     (by decide) (by decide),
   C9_minimum_descriptor_guard.2 freshTracker 1 (OPENED ||| SOCKET) CLOSED 0
     (by decide) (by decide),
   C9_minimum_descriptor_guard.2 freshTracker 2 0 (OPENED ||| CLOSED) OPENED
     (by decide) (by decide)⟩

/-- C10: every non-creating, non-closing facade wrapper passes zero
set-on-success bits to io::check (first conjunct, over the table read off
the source), and a check with zero set bits leaves the tracked state of
every descriptor unchanged (second conjunct; when the check aborts, the
getD default records that no state was produced at all).  These wrappers
perform no other tracker interaction, before or after the OS call, so the
tracked lifecycle state is unaffected whether that call succeeds or
fails. -/
theorem C10_noncreating_wrappers_frame :
    wrapperChecks.all (fun w => w.2.2.2 == 0) = true ∧
    ∀ (t : Int → Nat) (fd : Int) (check_set check_unset : Nat) (x : Int),
      ((check t fd check_set check_unset 0).map (fun u => u x)).getD (t x)
        = t x := by
  refine ⟨by decide, ?_⟩
  intro t fd cs cu x
  simp only [check]
  split_ifs with h1 h2 h3 h4
  · simp
  · simp
  · simp
  · simp
  · by_cases hx : x = fd <;> simp [updateFd, hx, Nat.or_zero]

/-- C6 counterexample: io::fadvise in the HAVE_POSIX_FADVISE build does not
hand back the native result of posix_fadvise: a success (0) is translated
to 1 and a failure (an error number such as 22, EINVAL) is translated to
0, which is neither the native error number nor any failure sentinel. -/
theorem C6_fadvise_translates_cex :
    fadvise_wrapper ⟨0, 0⟩ ≠ ⟨0, 0⟩ ∧
    fadvise_wrapper ⟨22, 0⟩ = ⟨0, 0⟩ ∧
    (fadvise_wrapper ⟨22, 0⟩).ret ≠ 22 ∧
    (fadvise_wrapper ⟨22, 0⟩).ret ≠ -1 := by
  refine ⟨by decide, by decide, by decide, by decide⟩

/-- C6 (amended): every facade wrapper except fadvise hands the caller the
native result of the underlying OS call with errno exactly as the call
left it: the direct wrappers return it unchanged, and the retry-based
wrappers return one of the results the underlying invocations actually
produced (the first non-interruption one) unchanged.  fadvise alone
translates: it returns 1 exactly when posix_fadvise returned 0, and 0
otherwise, though it too leaves errno alone. -/
theorem C6_wrappers_passthrough_except_fadvise (r : CallResult)
    (l : List CallResult) :
    unlink_wrapper r = r ∧ lseek_wrapper r = r ∧ fstat_wrapper r = r ∧
    dup_wrapper r = r ∧ dup2_wrapper r = r ∧ shutdown_wrapper r = r ∧
    getsockopt_wrapper r = r ∧ setsockopt_wrapper r = r ∧
    listen_wrapper r = r ∧ bind_wrapper r = r ∧
    (∀ res, send_wrapper l = some res →
      res ∈ l ∧ ¬(res.ret = -1 ∧ res.err = EINTR)) ∧
    (∀ res, sendto_wrapper l = some res →
      res ∈ l ∧ ¬(res.ret = -1 ∧ res.err = EINTR)) ∧
    (∀ res, recv_wrapper l = some res →
      res ∈ l ∧ ¬(res.ret = -1 ∧ res.err = EINTR)) ∧
    (∀ res, recvfrom_wrapper l = some res →
      res ∈ l ∧ ¬(res.ret = -1 ∧ res.err = EINTR)) ∧
    (∀ res, connect_wrapper l = some res →
      res ∈ l ∧ ¬(res.ret = -1 ∧ res.err = EINTR)) ∧
    (∀ res, fcntl_wrapper l = some res →
      res ∈ l ∧ ¬(res.ret = -1 ∧ res.err = EINTR)) ∧
    ((fadvise_wrapper r).ret = 1 ↔ r.ret = 0) ∧
    (fadvise_wrapper r).err = r.err := by
  have hfind : ∀ res, TEMP_FAILURE_RETRY l = some res →
      res ∈ l ∧ ¬(res.ret = -1 ∧ res.err = EINTR) := by
    intro res h
    rw [TFR_eq_find] at h
    refine ⟨List.mem_of_find?_eq_some h, ?_⟩
    have hp := List.find?_some h
    intro hc
    simp [hc.1, hc.2] at hp
  refine ⟨rfl, rfl, rfl, rfl, rfl, rfl, rfl, rfl, rfl, rfl,
    hfind, hfind, hfind, hfind, hfind, hfind, ?_, rfl⟩
  by_cases h : r.ret = 0 <;> simp [fadvise_wrapper, h]

/-- C6 amended-claim witness: the pass-through at the concrete result
(5, 0) and the retry wrapper on the one-call trace [(3, 0)]. -/
theorem C6_wrappers_passthrough_witness :
    lseek_wrapper ⟨5, 0⟩ = ⟨5, 0⟩ ∧
    (⟨3, 0⟩ : CallResult) ∈ [(⟨3, 0⟩ : CallResult)] ∧
    ¬((⟨3, 0⟩ : CallResult).ret = -1 ∧ (⟨3, 0⟩ : CallResult).err = EINTR) := by
  obtain ⟨h1, h2, h3, h4, h5, h6, h7, h8, h9, h10, hsend, hrest⟩ :=
    C6_wrappers_passthrough_except_fadvise ⟨5, 0⟩ [⟨3, 0⟩]
  exact ⟨h2, (hsend ⟨3, 0⟩ (by decide)).1, (hsend ⟨3, 0⟩ (by decide)).2⟩

/-- A check whose required bits are all present and whose forbidden bits are
all absent passes and ORs the set bits into the tracked state. -/
lemma check_ok (t : Int → Nat) (fd : Int) (cs cu s : Nat)
    (hfd : (3 : Int) ≤ fd) (hcs : cs &&& t fd = cs) (hcu : cu &&& t fd = 0) :
    check t fd cs cu s = some (updateFd t fd (t fd ||| s)) := by
  simp only [check, XAPIAND_MINIMUM_FILE_DESCRIPTOR, STDERR_FILENO]
  rw [if_neg (by omega), if_neg (by omega), if_neg (not_not_intro hcs),
    if_neg (not_not_intro hcu)]

/-- A check missing one of its required bits aborts. -/
lemma check_missing (t : Int → Nat) (fd : Int) (cs cu s : Nat)
    (hfd : (3 : Int) ≤ fd) (hcs : cs &&& t fd ≠ cs) :
    check t fd cs cu s = none := by
  simp only [check, XAPIAND_MINIMUM_FILE_DESCRIPTOR, STDERR_FILENO]
  rw [if_neg (by omega), if_neg (by omega), if_pos hcs]

/-- A check hitting one of its forbidden bits aborts. -/
lemma check_unset_hit (t : Int → Nat) (fd : Int) (cs cu s : Nat)
    (hfd : (3 : Int) ≤ fd) (hcs : cs &&& t fd = cs) (hcu : cu &&& t fd ≠ 0) :
    check t fd cs cu s = none := by
  simp only [check, XAPIAND_MINIMUM_FILE_DESCRIPTOR, STDERR_FILENO]
  rw [if_neg (by omega), if_neg (by omega), if_neg (not_not_intro hcs),
    if_pos hcu]

/-- C4 counterexample: open descriptor 3 as a socket from a fresh tracker
(tracked state becomes OPENED | SOCKET), then run the file-operation
pre-check CHECK_OPENED on it, the check every file wrapper (lseek, fstat,
fsync, ...) performs: the check passes instead of rejecting, because
CHECK_OPENED requires only the OPENED bit and does not forbid SOCKET.  The
claim that a file operation on a descriptor tracked as a socket is
rejected is therefore false. -/
theorem C4_file_op_on_socket_accepted_cex :
    (CHECK_OPEN_SOCKET freshTracker 3).map (fun u => u 3)
      = some (OPENED ||| SOCKET) ∧
    ((CHECK_OPEN_SOCKET freshTracker 3).bind
      (fun t1 => CHECK_OPENED t1 3)).isSome = true := by
  refine ⟨by decide, by decide⟩

/-- C4 (amended): for a descriptor at or above the minimum floor the
tracker rejects a second open without an intervening close, rejects
closing an unopened or an already-closed descriptor, and rejects a socket
operation on a descriptor tracked as a plain file; but a file operation on
a descriptor tracked as a socket is accepted, since CHECK_OPENED requires
only the OPENED bit; and a descriptor closed and then reused by the OS
(which re-enters Unopened) is accepted by a new open as fresh. -/
theorem C4_lifecycle_tracker (t : Int → Nat) (fd : Int)
    (hfd : XAPIAND_MINIMUM_FILE_DESCRIPTOR ≤ fd) :
    (t fd = 0 → CHECK_OPEN t fd = some (updateFd t fd (t fd ||| OPENED))) ∧
    (∀ t1, t fd = 0 → CHECK_OPEN t fd = some t1 → CHECK_OPEN t1 fd = none) ∧
    (t fd = 0 → CHECK_CLOSING t fd = none) ∧
    (t fd = CLOSED → CHECK_CLOSING t fd = none) ∧
    (t fd = OPENED →
      (close_track t fd true).map (fun u => u fd) = some CLOSED) ∧
    (∀ t2, t fd = OPENED → close_track t fd true = some t2 →
      close_track t2 fd true = none) ∧
    (t fd = OPENED → CHECK_OPENED_SOCKET t fd = none) ∧
    (t fd = OPENED ||| SOCKET → (CHECK_OPENED t fd).isSome = true) ∧
    (t fd = CLOSED →
      (CHECK_OPEN (reuse t fd) fd).map (fun u => u fd) = some OPENED) := by
  have hfd3 : (3 : Int) ≤ fd := by
    simpa [XAPIAND_MINIMUM_FILE_DESCRIPTOR, STDERR_FILENO] using hfd
  refine ⟨?_, ?_, ?_, ?_, ?_, ?_, ?_, ?_, ?_⟩
  · intro h
    exact check_ok t fd _ _ _ hfd3 (Nat.zero_and _) (by rw [h]; decide)
  · intro t1 h hopen
    have hck := check_ok t fd 0 (OPENED ||| CLOSED) OPENED hfd3
      (Nat.zero_and _) (by rw [h]; decide)
    rw [CHECK_OPEN] at hopen
    rw [hopen] at hck
    have ht1 : t1 = updateFd t fd (t fd ||| OPENED) := Option.some.inj hck
    have hval : t1 fd = OPENED := by
      rw [ht1]; simp [updateFd, h]
    exact check_unset_hit t1 fd _ _ _ hfd3 (Nat.zero_and _)
      (by rw [hval]; decide)
  · intro h
    exact check_missing t fd _ _ _ hfd3 (by rw [h]; decide)
  · intro h
    exact check_missing t fd _ _ _ hfd3 (by rw [h]; decide)
  · intro h
    rw [close_track, CHECK_CLOSING,
      check_ok t fd OPENED 0 0 hfd3 (by rw [h]; decide) (Nat.zero_and _)]
    simp [updateFd]
  · intro t2 h hclose
    have hck := check_ok t fd OPENED 0 0 hfd3 (by rw [h]; decide)
      (Nat.zero_and _)
    rw [close_track, CHECK_CLOSING, hck] at hclose
    simp only [Option.map_some, if_pos rfl] at hclose
    have ht2 : t2 = updateFd (updateFd t fd (t fd ||| 0)) fd CLOSED :=
      (Option.some.inj hclose).symm
    have hval : t2 fd = CLOSED := by
      rw [ht2]; simp [updateFd]
    rw [close_track, CHECK_CLOSING,
      check_missing t2 fd OPENED 0 0 hfd3 (by rw [hval]; decide)]
    rfl
  · intro h
    exact check_missing t fd _ _ _ hfd3 (by rw [h]; decide)
  · intro h
    rw [CHECK_OPENED,
      check_ok t fd OPENED CLOSED 0 hfd3 (by rw [h]; decide)
        (by rw [h]; decide)]
    rfl
  · intro h
    have h0 : reuse t fd fd = 0 := by simp [reuse, updateFd]
    rw [CHECK_OPEN,
      check_ok (reuse t fd) fd 0 (OPENED ||| CLOSED) OPENED hfd3
        (Nat.zero_and _) (by rw [h0]; decide)]
    simp [updateFd, h0]

/-- C4 amended-claim witness at descriptor 3: the full scenario with
concrete trackers. -/
theorem C4_lifecycle_tracker_witness :
    CHECK_OPEN freshTracker 3
      = some (updateFd freshTracker 3 (freshTracker 3 ||| OPENED)) ∧
    CHECK_OPEN (updateFd freshTracker 3 (freshTracker 3 ||| OPENED)) 3
      = none ∧
    CHECK_CLOSING freshTracker 3 = none ∧
    CHECK_CLOSING (updateFd freshTracker 3 CLOSED) 3 = none ∧
    (close_track (updateFd freshTracker 3 OPENED) 3 true).map (fun u => u 3)
      = some CLOSED ∧
    close_track
      (updateFd
        (updateFd (updateFd freshTracker 3 OPENED) 3
          (updateFd freshTracker 3 OPENED 3 ||| 0)) 3 CLOSED) 3 true
      = none ∧
    CHECK_OPENED_SOCKET (updateFd freshTracker 3 OPENED) 3 = none ∧
    (CHECK_OPENED (updateFd freshTracker 3 (OPENED ||| SOCKET)) 3).isSome
      = true ∧
    (CHECK_OPEN (reuse (updateFd freshTracker 3 CLOSED) 3) 3).map
      (fun u => u 3) = some OPENED := by
  refine ⟨?_, ?_, ?_, ?_, ?_, ?_, ?_, ?_, ?_⟩
  · exact (C4_lifecycle_tracker freshTracker 3 (by decide)).1 rfl
  · exact (C4_lifecycle_tracker freshTracker 3 (by decide)).2.1
      (updateFd freshTracker 3 (freshTracker 3 ||| OPENED)) rfl
      ((C4_lifecycle_tracker freshTracker 3 (by decide)).1 rfl)
  · exact (C4_lifecycle_tracker freshTracker 3 (by decide)).2.2.1 rfl
  · exact (C4_lifecycle_tracker (updateFd freshTracker 3 CLOSED) 3
      (by decide)).2.2.2.1 (by decide)
  · exact (C4_lifecycle_tracker (updateFd freshTracker 3 OPENED) 3
      (by decide)).2.2.2.2.1 (by decide)
  · exact (C4_lifecycle_tracker (updateFd freshTracker 3 OPENED) 3
      (by decide)).2.2.2.2.2.1
      (updateFd
        (updateFd (updateFd freshTracker 3 OPENED) 3
          (updateFd freshTracker 3 OPENED 3 ||| 0)) 3 CLOSED)
      (by decide) rfl
  · exact (C4_lifecycle_tracker (updateFd freshTracker 3 OPENED) 3
      (by decide)).2.2.2.2.2.2.1 (by decide)
  · exact (C4_lifecycle_tracker (updateFd freshTracker 3 (OPENED ||| SOCKET))
      3 (by decide)).2.2.2.2.2.2.2.1 (by decide)
  · exact (C4_lifecycle_tracker (updateFd freshTracker 3 CLOSED) 3
      (by decide)).2.2.2.2.2.2.2.2 (by decide)

/-- C7: a creation wrapper updates the tracker only when the real OS call
succeeded.  io::socket hands whatever ::socket returned to
CHECK_OPEN_SOCKET, so a failed call (sentinel -1) registers nothing and
the tracker is returned untouched, while a successful fresh descriptor is
marked OPENED | SOCKET.  io::accept behaves the same around its listening
pre-check and retry loop: a failed accept (eventual result -1) leaves every
tracked state as it was, and a successful one marks the new descriptor
OPENED | SOCKET. -/
theorem C7_creation_registers_only_on_success (t : Int → Nat)
    (sock fd : Int) (osResults : List CallResult) (r : CallResult) :
    ((socket_wrapper t (-1)).2 = some t) ∧
    (XAPIAND_MINIMUM_FILE_DESCRIPTOR ≤ fd → t fd = 0 →
      (socket_wrapper t fd).2.map (fun u => u fd)
        = some (OPENED ||| SOCKET)) ∧
    (XAPIAND_MINIMUM_FILE_DESCRIPTOR ≤ sock → t sock = OPENED ||| SOCKET →
      TEMP_FAILURE_RETRY osResults = some r → r.ret = -1 →
      ∀ x, ((accept_wrapper t sock osResults).2).map (fun u => u x)
        = some (t x)) ∧
    (XAPIAND_MINIMUM_FILE_DESCRIPTOR ≤ sock → t sock = OPENED ||| SOCKET →
      XAPIAND_MINIMUM_FILE_DESCRIPTOR ≤ fd → t fd = 0 →
      TEMP_FAILURE_RETRY osResults = some r → r.ret = fd →
      ((accept_wrapper t sock osResults).2).map (fun u => u fd)
        = some (OPENED ||| SOCKET)) := by
  refine ⟨?_, ?_, ?_, ?_⟩
  · simp [socket_wrapper, CHECK_OPEN_SOCKET, check]
  · intro hfd h
    have hfd3 : (3 : Int) ≤ fd := by
      simpa [XAPIAND_MINIMUM_FILE_DESCRIPTOR, STDERR_FILENO] using hfd
    rw [socket_wrapper, CHECK_OPEN_SOCKET,
      check_ok t fd 0 (OPENED ||| SOCKET ||| CLOSED) (OPENED ||| SOCKET)
        hfd3 (Nat.zero_and _) (by rw [h]; decide)]
    simp [updateFd, h]
  · intro hsock hst hr hret x
    have hsock3 : (3 : Int) ≤ sock := by
      simpa [XAPIAND_MINIMUM_FILE_DESCRIPTOR, STDERR_FILENO] using hsock
    have hpre := check_ok t sock (OPENED ||| SOCKET) CLOSED 0 hsock3
      (by rw [hst]; decide) (by rw [hst]; decide)
    simp only [accept_wrapper, CHECK_OPENED_SOCKET, hpre, hr, hret]
    simp only [CHECK_OPEN_SOCKET, check, if_pos rfl, Option.map_some]
    by_cases hx : x = sock <;> simp [updateFd, hx, Nat.or_zero]
  · intro hsock hst hfd hfd0 hr hret
    have hsock3 : (3 : Int) ≤ sock := by
      simpa [XAPIAND_MINIMUM_FILE_DESCRIPTOR, STDERR_FILENO] using hsock
    have hfd3 : (3 : Int) ≤ fd := by
      simpa [XAPIAND_MINIMUM_FILE_DESCRIPTOR, STDERR_FILENO] using hfd
    have hpre := check_ok t sock (OPENED ||| SOCKET) CLOSED 0 hsock3
      (by rw [hst]; decide) (by rw [hst]; decide)
    have hne : fd ≠ sock := by
      intro he
      rw [he, hst] at hfd0
      exact absurd hfd0 (by decide)
    have ht1fd : updateFd t sock (t sock ||| 0) fd = 0 := by
      simp [updateFd, hne, hfd0]
    simp only [accept_wrapper, CHECK_OPENED_SOCKET, hpre, hr, hret]
    rw [CHECK_OPEN_SOCKET,
      check_ok (updateFd t sock (t sock ||| 0)) fd 0
        (OPENED ||| SOCKET ||| CLOSED) (OPENED ||| SOCKET) hfd3
        (Nat.zero_and _) (by rw [ht1fd]; decide)]
    simp [updateFd, hne, hfd0, Nat.zero_or]

/-- C7 witness: a failed ::socket (-1) leaves the fresh tracker untouched;
a successful ::socket on descriptor 3 marks it OPENED | SOCKET; with a
listening socket 4, a failed ::accept trace leaves the state of 4
untouched and a successful one returning 5 marks 5 as OPENED | SOCKET. -/
theorem C7_creation_registers_only_on_success_witness :
    (socket_wrapper freshTracker (-1)).2 = some freshTracker ∧
    (socket_wrapper freshTracker 3).2.map (fun u => u 3)
      = some (OPENED ||| SOCKET) ∧
    ((accept_wrapper (updateFd freshTracker 4 (OPENED ||| SOCKET)) 4
        [⟨-1, 99⟩]).2).map (fun u => u 4)
      = some (updateFd freshTracker 4 (OPENED ||| SOCKET) 4) ∧
    ((accept_wrapper (updateFd freshTracker 4 (OPENED ||| SOCKET)) 4
        [⟨5, 0⟩]).2).map (fun u => u 5)
      = some (OPENED ||| SOCKET) := by
  refine ⟨?_, ?_, ?_, ?_⟩
  · exact (C7_creation_registers_only_on_success freshTracker 4 3 [] ⟨0, 0⟩).1
  · exact (C7_creation_registers_only_on_success freshTracker 4 3 []
      ⟨0, 0⟩).2.1 (by decide) rfl
  · exact (C7_creation_registers_only_on_success
      (updateFd freshTracker 4 (OPENED ||| SOCKET)) 4 3 [⟨-1, 99⟩]
      ⟨-1, 99⟩).2.2.1 (by decide) (by decide) (by decide) (by decide) 4
  · exact (C7_creation_registers_only_on_success
      (updateFd freshTracker 4 (OPENED ||| SOCKET)) 4 5 [⟨5, 0⟩]
      ⟨5, 0⟩).2.2.2 (by decide) (by decide) (by decide) (by decide)
      (by decide) (by decide)
